import Mathlib

/-!
Shallow embedding of `app/parse.py` (a Selenium e-commerce scraper) and
proofs about its extraction and pagination behaviour.

The browser-automation engine and the markup parser are collaborators the
program consumes; the embedding models the repository's own control flow
over them: the exception classes it catches (with Selenium's class
hierarchy), the pagination loop of `get_page_products`, the detail-page
variant extraction of `product_hdd_block_prices`, the card parsing of
`parse_single_product`, and the row layout written by
`write_products_to_csv`.  Numbers parsed by Python's `float`/`int` are
modelled as exact rationals/integers; a detail page is modelled by what the
driver's element lookups return on it.
-/

deriving instance DecidableEq for Except

namespace Scraper

/-- The Python exception classes that can reach the scraper's `try` blocks:
the Selenium exceptions imported by `parse.py`, a generic further
`WebDriverException`, and the builtin `ValueError` / `IndexError` that
`float(...)` and `[0]` can raise.  Every constructor models a class that
subclasses Python's `Exception`. -/
inductive PyExn where
  | noSuchElement
  | elementClickIntercepted
  | elementNotInteractable
  | timeout
  | otherWebDriver
  | valueError
  | indexError
  deriving DecidableEq, Repr, Fintype

/-- Models `isinstance(e, WebDriverException)` per Selenium's hierarchy:
`NoSuchElementException`, `ElementClickInterceptedException`,
`ElementNotInteractableException` (via `InvalidElementStateException`) and
`TimeoutException` all subclass `WebDriverException`; the builtin
`ValueError` and `IndexError` do not. -/
def PyExn.isWebDriverError : PyExn → Bool
  | .noSuchElement => true
  | .elementClickIntercepted => true
  | .elementNotInteractable => true
  | .timeout => true
  | .otherWebDriver => true
  | .valueError => false
  | .indexError => false

/-- Log levels used by the scraper (`logging.info/warning/error`). -/
inductive LogLevel where
  | info
  | warning
  | error
  deriving DecidableEq, Repr

/-- What a matched `except` clause of the pagination loop does after
logging: `break` out of the `while True`, or fall through to the next
iteration (no `break` in the clause body). -/
inductive HandlerAct where
  | stopLoop
  | retryLoop
  deriving DecidableEq, Repr

/-- One `except` clause: the `isinstance` test of its caught class, the
level it logs at, and whether its body ends in `break`. -/
structure ExceptClause where
  catches : PyExn → Bool
  level : LogLevel
  act : HandlerAct

/-- The `except` chain of `get_page_products`' pagination loop, in source
order:
`NoSuchElementException` → info + `break` (pagination complete);
`ElementClickInterceptedException` → warning, no `break` (retry);
`TimeoutException` → error, no `break` (the source clause has no `break`);
`WebDriverException` → error + `break`;
`Exception` → error + `break`. -/
def exceptChain : List ExceptClause :=
  [⟨(· = PyExn.noSuchElement), LogLevel.info, HandlerAct.stopLoop⟩,
   ⟨(· = PyExn.elementClickIntercepted), LogLevel.warning, HandlerAct.retryLoop⟩,
   ⟨(· = PyExn.timeout), LogLevel.error, HandlerAct.retryLoop⟩,
   ⟨PyExn.isWebDriverError, LogLevel.error, HandlerAct.stopLoop⟩,
   ⟨fun _ => true, LogLevel.error, HandlerAct.stopLoop⟩]

/-- Python `except` dispatch: the first clause whose class matches the
raised exception handles it; `none` means no clause matched and the
exception propagates out of the `try`. -/
def firstMatch : List ExceptClause → PyExn → Option (LogLevel × HandlerAct)
  | [], _ => none
  | c :: rest, e => if c.catches e then some (c.level, c.act) else firstMatch rest e

/-- One iteration's outcome of the `try` body
(`find_element(...); more_button.click()`): either the lookup succeeded and
the click went through, or some exception was raised while locating or
clicking. -/
inductive LoopEvent where
  | clickOk
  | raised (e : PyExn)
  deriving DecidableEq, Repr

/-- How a run of the pagination loop ended: it left the `while True` via
`break` (the function then continues normally), an exception escaped the
loop, or the modelled event script ran out with the loop still going. -/
inductive LoopExit where
  | finished
  | propagated (e : PyExn)
  | ranOut
  deriving DecidableEq, Repr

/-- Observable outcome of a run of the pagination loop: successful clicks
performed, log entries in order, iterations consumed from the script, and
how the loop ended. -/
structure PagRun where
  clicks : Nat
  logs : List LogLevel
  consumed : Nat
  exit : LoopExit
  deriving DecidableEq, Repr

/-- The `while True` pagination loop of `get_page_products`, run against a
script giving each iteration's `try`-body outcome.  A successful iteration
clicks and loops again; a raised exception is dispatched through
`exceptChain`: the matched clause logs and either breaks or retries, and an
unmatched exception would propagate. -/
def paginateLoop : List LoopEvent → PagRun
  | [] => ⟨0, [], 0, LoopExit.ranOut⟩
  | LoopEvent.clickOk :: rest =>
      let r := paginateLoop rest
      ⟨r.clicks + 1, r.logs, r.consumed + 1, r.exit⟩
  | LoopEvent.raised e :: rest =>
      match firstMatch exceptChain e with
      | none => ⟨0, [], 1, LoopExit.propagated e⟩
      | some (lvl, HandlerAct.stopLoop) => ⟨0, [lvl], 1, LoopExit.finished⟩
      | some (lvl, HandlerAct.retryLoop) =>
          let r := paginateLoop rest
          ⟨r.clicks, lvl :: r.logs, r.consumed + 1, r.exit⟩

/-- Value of a digit string, most significant first. -/
def digitsVal (cs : List Char) : ℕ :=
  cs.foldl (fun n c => n * 10 + (c.toNat - Char.toNat '0')) 0

/-- Model of Python's `float(...)` restricted to the unsigned decimal
literals the scraped price texts contain: digits, optionally a decimal
point and further digits, valued as an exact rational.  Any other string
raises `ValueError` (here: `none`). -/
def parseDecimal (s : String) : Option ℚ :=
  match s.data.splitOn '.' with
  | [ip] =>
      if ip.isEmpty = false && ip.all Char.isDigit then
        some (mkRat (digitsVal ip) 1)
      else none
  | [ip, fp] =>
      if ip.isEmpty = false && ip.all Char.isDigit && fp.all Char.isDigit then
        some (mkRat (digitsVal ip * 10 ^ fp.length + digitsVal fp) (10 ^ fp.length))
      else none
  | _ => none

/-- The scraper's `text.replace("$", "")`: drop every dollar sign. -/
def stripDollar (s : String) : String := ⟨s.data.filter (· ≠ '$')⟩

/-- Helper for `pySplit`: scan the characters with the token accumulated
so far; whitespace runs delimit tokens and contribute no empty token. -/
def pySplitAux : List Char → List Char → List String
  | [], cur => if cur = [] then [] else [String.mk cur]
  | c :: cs, cur =>
      if c.isWhitespace then
        if cur = [] then pySplitAux cs [] else String.mk cur :: pySplitAux cs []
      else pySplitAux cs (cur ++ [c])

/-- Python's no-argument `str.split()`: split on whitespace runs,
discarding empty pieces. -/
def pySplit (s : String) : List String := pySplitAux s.data []

/-- Model of Python's `int(...)` on whitespace-free tokens: an optional
minus sign followed by digits; anything else raises `ValueError`. -/
def pyInt (s : String) : Option ℤ :=
  match s.data with
  | [] => none
  | '-' :: rest =>
      if rest.isEmpty = false && rest.all Char.isDigit then
        some (-(digitsVal rest : ℤ))
      else none
  | cs =>
      if cs.all Char.isDigit then some ((digitsVal cs : ℤ)) else none

/-- One `button` inside the swatches element, as the scraper reads it:
its `disabled` property and its `value` property. -/
structure SwatchButton where
  disabled : Bool
  value : String
  deriving DecidableEq, Repr

/-- A product detail page, modelled by what the driver's lookups return on
it after `driver.get(detail_url)`: the swatches element with its buttons
(or `none` when `find_element(By.CLASS_NAME, "swatches")` raises
`NoSuchElementException`), and, for each swatch value, the text of the
displayed `price` element immediately after that swatch is clicked (or
`none` when that price lookup raises `NoSuchElementException`). -/
structure DetailPage where
  swatches : Option (List SwatchButton)
  priceAfterClick : String → Option String

/-- Python `dict` assignment `prices[k] = v`: an existing key keeps its
position and gets the new value, a new key is appended. -/
def dictInsert (d : List (String × ℚ)) (k : String) (v : ℚ) : List (String × ℚ) :=
  if d.any (fun p => p.1 = k) then d.map (fun p => if p.1 = k then (k, v) else p)
  else d ++ [(k, v)]

/-- The `for button in buttons` body inside the `try` of
`product_hdd_block_prices`, threading the mutable `prices` dict.  A raised
exception carries the dict's contents at that moment, since the enclosing
`except NoSuchElementException` returns `prices` as accumulated so far:
a missing displayed price raises `NoSuchElementException`, a malformed
price text makes `float` raise `ValueError`. -/
def hddTryBody (page : DetailPage) :
    List SwatchButton → List (String × ℚ) →
      Except (PyExn × List (String × ℚ)) (List (String × ℚ))
  | [], prices => Except.ok prices
  | b :: rest, prices =>
      if b.disabled then hddTryBody page rest prices
      else
        match page.priceAfterClick b.value with
        | none => Except.error (PyExn.noSuchElement, prices)
        | some txt =>
            match parseDecimal (stripDollar txt) with
            | none => Except.error (PyExn.valueError, prices)
            | some q => hddTryBody page rest (dictInsert prices b.value q)

/-- The function `product_hdd_block_prices`: navigate to the detail page, look up the
swatches element (absence raises `NoSuchElementException`), and run the
button loop.  The single `except NoSuchElementException: return prices`
clause wraps the whole block, so that exception — raised while locating
the swatches or while locating a displayed price mid-loop — yields the
prices accumulated so far; any other exception propagates. -/
def product_hdd_block_prices (page : DetailPage) :
    Except PyExn (List (String × ℚ)) :=
  match page.swatches with
  | none => Except.ok []
  | some buttons =>
      match hddTryBody page buttons [] with
      | Except.ok prices => Except.ok prices
      | Except.error (PyExn.noSuchElement, prices) => Except.ok prices
      | Except.error (e, _) => Except.error e

/-- The fields of one product card (`.thumbnail` soup) that
`parse_single_product` reads: the title attribute, the description text,
the price text, the number of star-icon elements, and the review-count
text. -/
structure Card where
  title : String
  description : String
  priceText : String
  starCount : ℕ
  reviewCountText : String
  deriving DecidableEq, Repr

/-- The scraper's `additional_info` dict, which holds the single key
`hdd_prices`. -/
structure AdditionalInfo where
  hdd_prices : List (String × ℚ)
  deriving DecidableEq, Repr

/-- The `Product` dataclass, fields in declaration order. -/
structure Product where
  title : String
  description : String
  price : ℚ
  rating : ℕ
  num_of_reviews : ℤ
  additional_info : AdditionalInfo
  deriving DecidableEq, Repr

/-- The function `parse_single_product`: first obtain `hdd_prices` from the detail page
(its uncaught exceptions propagate), then build the record.  Argument
evaluation order follows the source: `price` via
`float(text.replace("$", ""))` (malformed text raises `ValueError`), then
`num_of_reviews` via `int(text.split()[0])` (an empty split raises
`IndexError`, a non-integer first token raises `ValueError`).  `title`,
`description` and `rating` are read directly from the card. -/
def parse_single_product (page : DetailPage) (card : Card) : Except PyExn Product :=
  match product_hdd_block_prices page with
  | Except.error e => Except.error e
  | Except.ok hdd =>
      match parseDecimal (stripDollar card.priceText) with
      | none => Except.error PyExn.valueError
      | some p =>
          match pySplit card.reviewCountText with
          | [] => Except.error PyExn.indexError
          | tok :: _ =>
              match pyInt tok with
              | none => Except.error PyExn.valueError
              | some n =>
                  Except.ok ⟨card.title, card.description, p, card.starCount, n, ⟨hdd⟩⟩

/-- Models `PRODUCT_FIELDS = [field.name for field in fields(Product)]`: the
dataclass field names in declaration order. -/
def PRODUCT_FIELDS : List String :=
  ["title", "description", "price", "rating", "num_of_reviews", "additional_info"]

/-- Textual rendering of the `additional_info` dict, modelling `str` of
the Python dict as `csv.writer` stringifies it. -/
def additionalInfoStr (a : AdditionalInfo) : String :=
  "hdd_prices: " ++
    String.intercalate ", " (a.hdd_prices.map (fun p => p.1 ++ " -> " ++ toString p.2))

/-- Models `astuple(product)` as stringified by `csv.writer`: the six field
values, in dataclass field order. -/
def astuple (p : Product) : List String :=
  [p.title, p.description, toString p.price, toString p.rating,
   toString p.num_of_reviews, additionalInfoStr p.additional_info]

/-- The `for product in products: writer.writerow(astuple(product))` loop:
one row per record, in input order. -/
def writeRows : List Product → List (List String)
  | [] => []
  | p :: rest => astuple p :: writeRows rest

/-- The function `write_products_to_csv`, modelled at the level of the rows the csv
writer emits: first `writer.writerow(PRODUCT_FIELDS)`, then the record
rows. -/
def write_products_to_csv (products : List Product) : List (List String) :=
  PRODUCT_FIELDS :: writeRows products

/-- A detail page with no swatches element. -/
def pageNoSwatches : DetailPage := ⟨none, fun _ => some "$0"⟩

/-- A detail page whose swatches element has one enabled button but whose
displayed-price lookup always raises `NoSuchElementException`. -/
def pageNoPrice : DetailPage := ⟨some [⟨false, "1TB"⟩], fun _ => none⟩

/-- A detail page with two enabled swatch buttons (values 128GB, 1TB) and
one disabled one (2TB), each click revealing a well-formed price. -/
def pageTwoSwatches : DetailPage :=
  ⟨some [⟨false, "128GB"⟩, ⟨true, "2TB"⟩, ⟨false, "1TB"⟩],
   fun v => if v = "128GB" then some "$24.99" else
            if v = "1TB" then some "$99.50" else some "bad"⟩

/-- A concrete well-formed card. -/
def cardOk : Card := ⟨"Acer Swift 3", "A laptop", "$24.99", 4, "15 reviews"⟩

/-- A card whose review-count text is whitespace only. -/
def cardBlankReviews : Card := ⟨"Acer Swift 3", "A laptop", "$24.99", 4, "   "⟩

/-! ## Theorems about the pagination loop -/

/-- Every exception in the model inventory is matched by some clause of
the pagination loop's `except` chain (the final `except Exception` clause
catches whatever the earlier ones do not). -/
theorem exceptChain_matches_all (e : PyExn) : firstMatch exceptChain e ≠ none := by
  cases e <;> decide

/-- C1: the claim states that after a wait/response timeout the loop stops
— no further locate/click iteration runs.  In the source the
`TimeoutException` clause logs an error but has no `break`, so the loop
goes on: after a timeout on the first iteration the loop still consumes
two more iterations and performs a further click. -/
theorem C1_counterexample :
    paginateLoop
        [LoopEvent.raised PyExn.timeout, LoopEvent.clickOk,
         LoopEvent.raised PyExn.noSuchElement] =
      ⟨1, [LogLevel.error, LogLevel.info], 3, LoopExit.finished⟩ ∧
    ¬ (paginateLoop
        [LoopEvent.raised PyExn.timeout, LoopEvent.clickOk,
         LoopEvent.raised PyExn.noSuchElement]).consumed ≤ 1 := by decide

/-- C1 (amended): on a wait/response timeout while locating or clicking
the load-more control, the loop logs an error and then continues with the
next iteration (the `TimeoutException` clause has no `break`), rather than
stopping pagination. -/
theorem C1_timeout_logs_error_and_continues (rest : List LoopEvent) :
    paginateLoop (LoopEvent.raised PyExn.timeout :: rest) =
      ⟨(paginateLoop rest).clicks, LogLevel.error :: (paginateLoop rest).logs,
       (paginateLoop rest).consumed + 1, (paginateLoop rest).exit⟩ := rfl

/-- C2: the claim states that a transiently non-interactable element is
also logged as a warning and retried.  In the source
`ElementNotInteractableException` has no clause of its own; it is caught
by the `WebDriverException` clause, which logs an error and breaks: on a
non-interactable element in the first iteration the loop logs one error,
no warning, and stops after that single iteration. -/
theorem C2_counterexample :
    paginateLoop
        [LoopEvent.raised PyExn.elementNotInteractable, LoopEvent.clickOk,
         LoopEvent.raised PyExn.noSuchElement] =
      ⟨0, [LogLevel.error], 1, LoopExit.finished⟩ ∧
    LogLevel.warning ∉ (paginateLoop
        [LoopEvent.raised PyExn.elementNotInteractable, LoopEvent.clickOk,
         LoopEvent.raised PyExn.noSuchElement]).logs := by decide

/-- C2 (amended): only a click intercepted by an overlaying element
(`ElementClickInterceptedException`) is logged as a warning and retried in
the same loop; a transiently non-interactable element
(`ElementNotInteractableException`) falls to the `WebDriverException`
clause, which logs an error and stops pagination. -/
theorem C2_intercepted_retries_nonInteractable_stops (rest : List LoopEvent) :
    paginateLoop (LoopEvent.raised PyExn.elementClickIntercepted :: rest) =
      ⟨(paginateLoop rest).clicks, LogLevel.warning :: (paginateLoop rest).logs,
       (paginateLoop rest).consumed + 1, (paginateLoop rest).exit⟩ ∧
    paginateLoop (LoopEvent.raised PyExn.elementNotInteractable :: rest) =
      ⟨0, [LogLevel.error], 1, LoopExit.finished⟩ :=
  ⟨rfl, rfl⟩

/-- C4: whatever exceptions the locate/click attempts raise, no exception
ever escapes the pagination loop of `get_page_products`: every run of the
loop either breaks normally (after which the function processes whatever
content has loaded) or is still looping — the exit is never `propagated`. -/
theorem C4_pagination_never_propagates (script : List LoopEvent) (e : PyExn) :
    (paginateLoop script).exit ≠ LoopExit.propagated e := by
  induction script with
  | nil => simp [paginateLoop]
  | cons ev rest ih =>
      cases ev with
      | clickOk => simpa [paginateLoop] using ih
      | raised e2 =>
          have hm := exceptChain_matches_all e2
          rcases h : firstMatch exceptChain e2 with _ | ⟨lvl, act⟩
          · exact absurd h hm
          · cases act
            · simp [paginateLoop, h]
            · simpa [paginateLoop, h] using ih

/-- C4 witness: a concrete driver-level failure in the first iteration
leaves the loop with a finished, non-propagated exit. -/
theorem C4_pagination_never_propagates_witness :
    (paginateLoop [LoopEvent.raised PyExn.otherWebDriver]).exit ≠
      LoopExit.propagated PyExn.otherWebDriver :=
  C4_pagination_never_propagates [LoopEvent.raised PyExn.otherWebDriver]
    PyExn.otherWebDriver

/-- C7: on a page whose load-more control is present and clickable for
exactly `K` consecutive lookups and absent on the `(K+1)`-th, the loop
performs exactly `K` clicks, consumes `K + 1` iterations, logs only the
completion info line (no warning or error), and breaks normally. -/
theorem C7_k_clicks_then_done (K : ℕ) :
    paginateLoop
        (List.replicate K LoopEvent.clickOk ++ [LoopEvent.raised PyExn.noSuchElement]) =
      ⟨K, [LogLevel.info], K + 1, LoopExit.finished⟩ := by
  induction K with
  | zero => decide
  | succ k ih => simp [List.replicate_succ, paginateLoop, ih]

/-! ## Theorems about detail-page variant extraction and card parsing -/

/-- A concrete record: what `parse_single_product` produces for `cardOk`
on `pageNoSwatches`. -/
def prodOk : Product :=
  ⟨"Acer Swift 3", "A laptop", mkRat 2499 100, 4, 15, ⟨[]⟩⟩

/-- C5: a detail page without a swatches element makes
`product_hdd_block_prices` return the empty mapping normally (the raised
`NoSuchElementException` is caught), and every record parsed against such
a page carries `additional_info` with an empty `hdd_prices` mapping. -/
theorem C5_no_swatches_empty_mapping (page : DetailPage)
    (h : page.swatches = none) :
    product_hdd_block_prices page = Except.ok [] ∧
    ∀ card prod, parse_single_product page card = Except.ok prod →
      prod.additional_info = ⟨[]⟩ := by
  have h1 : product_hdd_block_prices page = Except.ok [] := by
    simp [product_hdd_block_prices, h]
  refine ⟨h1, ?_⟩
  intro card prod hp
  simp only [parse_single_product, h1] at hp
  split at hp
  · exact absurd hp (by simp)
  · split at hp
    · exact absurd hp (by simp)
    · split at hp
      · exact absurd hp (by simp)
      · cases hp
        rfl

/-- C5 witness: on the concrete swatch-free page, the mapping is empty and
the concrete parsed record has empty `hdd_prices`. -/
theorem C5_no_swatches_empty_mapping_witness :
    product_hdd_block_prices pageNoSwatches = Except.ok [] ∧
    prodOk.additional_info = ⟨[]⟩ :=
  ⟨(C5_no_swatches_empty_mapping pageNoSwatches rfl).1,
   (C5_no_swatches_empty_mapping pageNoSwatches rfl).2 cardOk prodOk (by decide)⟩

/-- C3: the claim states that only element-not-found while locating the
swatch group is caught, and that a failure to locate the displayed price
element while iterating the buttons propagates.  In the source the single
`except NoSuchElementException` clause wraps the whole block, button loop
included: on a page whose swatch group exists with one enabled button but
whose price lookup raises `NoSuchElementException`, the function returns
the (empty) accumulated mapping normally and propagates nothing. -/
theorem C3_counterexample :
    product_hdd_block_prices pageNoPrice = Except.ok [] ∧
    (product_hdd_block_prices pageNoPrice).isOk = true := by decide

/-- The button loop of `product_hdd_block_prices` only ever raises
`NoSuchElementException` (missing displayed price) or `ValueError`
(malformed price text). -/
theorem hddTryBody_error_cases (page : DetailPage) :
    ∀ (buttons : List SwatchButton) (acc : List (String × ℚ)),
      (∃ m, hddTryBody page buttons acc = Except.ok m) ∨
      (∃ m, hddTryBody page buttons acc = Except.error (PyExn.noSuchElement, m)) ∨
      (∃ m, hddTryBody page buttons acc = Except.error (PyExn.valueError, m)) := by
  intro buttons
  induction buttons with
  | nil => exact fun acc => Or.inl ⟨acc, rfl⟩
  | cons b rest ih =>
      intro acc
      by_cases hb : b.disabled
      · simpa [hddTryBody, hb] using ih acc
      · rcases hpt : page.priceAfterClick b.value with _ | t
        · exact Or.inr (Or.inl ⟨acc, by simp [hddTryBody, hb, hpt]⟩)
        · rcases hq : parseDecimal (stripDollar t) with _ | q
          · exact Or.inr (Or.inr ⟨acc, by simp [hddTryBody, hb, hpt, hq]⟩)
          · simpa [hddTryBody, hb, hpt, hq] using ih (dictInsert acc b.value q)

/-- C3 (amended): `NoSuchElementException` is caught wherever it arises in
the detail-page block — locating the swatch group or locating the
displayed price mid-loop — and yields the mapping accumulated so far; the
only failure this level can propagate is the `ValueError` of a malformed
displayed price text. -/
theorem C3_only_value_error_propagates (page : DetailPage) :
    (∃ m, product_hdd_block_prices page = Except.ok m) ∨
      product_hdd_block_prices page = Except.error PyExn.valueError := by
  rcases hs : page.swatches with _ | buttons
  · exact Or.inl ⟨[], by simp [product_hdd_block_prices, hs]⟩
  · rcases hddTryBody_error_cases page buttons [] with ⟨m, hm⟩ | ⟨m, hm⟩ | ⟨m, hm⟩
    · exact Or.inl ⟨m, by simp [product_hdd_block_prices, hs, hm]⟩
    · exact Or.inl ⟨m, by simp [product_hdd_block_prices, hs, hm]⟩
    · exact Or.inr (by simp [product_hdd_block_prices, hs, hm])

/-- Lemma: `writeRows` emits exactly the stringified records, in input order. -/
theorem writeRows_eq_map (products : List Product) :
    writeRows products = products.map astuple := by
  induction products with
  | nil => rfl
  | cons p rest ih => simp [writeRows, ih]

/-- C9: the csv writer's output starts with the header of the six field
names in dataclass order, followed by exactly one row per record — the
record's six values in that same order — in the sequence of the input
list; with zero records only the header row is written. -/
theorem C9_header_then_rows (products : List Product) :
    write_products_to_csv products = PRODUCT_FIELDS :: products.map astuple ∧
    (write_products_to_csv products).length = products.length + 1 ∧
    write_products_to_csv [] = [PRODUCT_FIELDS] := by
  refine ⟨?_, ?_, rfl⟩
  · simp [write_products_to_csv, writeRows_eq_map]
  · simp [write_products_to_csv, writeRows_eq_map]

/-- Whenever `parse_single_product` returns a record, the record's `price`
is exactly what the decimal parse of the dollar-stripped price text
produced. -/
theorem parse_ok_price (page : DetailPage) (card : Card) (prod : Product)
    (h : parse_single_product page card = Except.ok prod) :
    parseDecimal (stripDollar card.priceText) = some prod.price := by
  simp only [parse_single_product] at h
  split at h
  · exact absurd h (by simp)
  · split at h
    · exact absurd h (by simp)
    · rename_i heq
      split at h
      · exact absurd h (by simp)
      · split at h
        · exact absurd h (by simp)
        · cases h
          exact heq

/-- A string of digits and dots is unchanged by `replace("$", "")` after a
single leading dollar sign is stripped. -/
theorem stripDollar_dollar_append (t : String)
    (h : t.data.all (fun c => c.isDigit || c = '.') = true) :
    stripDollar ("$" ++ t) = t := by
  have hfilter : t.data.filter (fun c => decide (c ≠ '$')) = t.data := by
    apply List.filter_eq_self.mpr
    intro c hc
    have hcd : c.isDigit = true ∨ c = '.' := by
      simpa using List.all_eq_true.mp h c hc
    have hne : c ≠ '$' := by
      rcases hcd with h1 | h2
      · intro he
        rw [he] at h1
        exact absurd h1 (by decide)
      · rw [h2]
        decide
    exact decide_eq_true hne
  have hdata : ("$" ++ t).data = '$' :: t.data := by
    simp [String.data_append]
  have key : ("$" ++ t).data.filter (fun c => decide (c ≠ '$')) = t.data := by
    rw [hdata, List.filter_cons]
    have h0 : (decide ('$' ≠ '$')) = false := by decide
    rw [h0]
    simpa using hfilter
  show (⟨("$" ++ t).data.filter (fun c => decide (c ≠ '$'))⟩ : String) = t
  rw [key]

/-- C8: for a card whose price text is a currency symbol followed by a
well-formed decimal literal `t` parsing to the rational `q`, any record
`parse_single_product` returns for that card has `price = q` — the
currency symbol is stripped and the remainder parsed numerically. -/
theorem C8_price_strips_currency_symbol (page : DetailPage) (card : Card)
    (prod : Product) (t : String) (q : ℚ)
    (h1 : card.priceText = "$" ++ t)
    (h2 : t.data.all (fun c => c.isDigit || c = '.') = true)
    (h3 : parseDecimal t = some q)
    (h4 : parse_single_product page card = Except.ok prod) :
    prod.price = q := by
  have hp := parse_ok_price page card prod h4
  rw [h1, stripDollar_dollar_append t h2, h3] at hp
  exact (Option.some_injective _ hp).symm

/-- C8 witness: the concrete card with price text `$24.99` parses to a
record whose price is `24.99 = 2499/100`. -/
theorem C8_price_strips_currency_symbol_witness :
    parse_single_product pageNoSwatches cardOk = Except.ok prodOk ∧
    prodOk.price = mkRat 2499 100 :=
  ⟨by decide,
   C8_price_strips_currency_symbol pageNoSwatches cardOk prodOk "24.99"
     (mkRat 2499 100) (by decide) (by decide) (by decide) (by decide)⟩

/-- C10: `num_of_reviews` extraction is only partially defined.  With the
review-count text splitting to no token (empty or whitespace-only text),
or to a first token that is not an integer literal, `parse_single_product`
raises instead of producing a record; when the first token is a valid
integer `n`, any record produced has `num_of_reviews = n`. -/
theorem C10_reviews_first_token (page : DetailPage) (card : Card) :
    (pySplit card.reviewCountText = [] →
      ∃ e, parse_single_product page card = Except.error e) ∧
    (∀ tok toks, pySplit card.reviewCountText = tok :: toks → pyInt tok = none →
      ∃ e, parse_single_product page card = Except.error e) ∧
    (∀ tok toks n prod, pySplit card.reviewCountText = tok :: toks →
      pyInt tok = some n → parse_single_product page card = Except.ok prod →
      prod.num_of_reviews = n) := by
  refine ⟨?_, ?_, ?_⟩
  · intro hsplit
    rcases hh : product_hdd_block_prices page with e | hdd
    · exact ⟨e, by simp [parse_single_product, hh]⟩
    · rcases hq : parseDecimal (stripDollar card.priceText) with _ | q
      · exact ⟨PyExn.valueError, by simp [parse_single_product, hh, hq]⟩
      · exact ⟨PyExn.indexError, by simp [parse_single_product, hh, hq, hsplit]⟩
  · intro tok toks hsplit htok
    rcases hh : product_hdd_block_prices page with e | hdd
    · exact ⟨e, by simp [parse_single_product, hh]⟩
    · rcases hq : parseDecimal (stripDollar card.priceText) with _ | q
      · exact ⟨PyExn.valueError, by simp [parse_single_product, hh, hq]⟩
      · exact ⟨PyExn.valueError, by simp [parse_single_product, hh, hq, hsplit, htok]⟩
  · intro tok toks n prod hsplit htok hok
    simp only [parse_single_product, hsplit, htok] at hok
    split at hok
    · exact absurd hok (by simp)
    · split at hok
      · exact absurd hok (by simp)
      · cases hok
        rfl

/-- C10 witness: the whitespace-only review text makes the concrete parse
raise, and the concrete `15 reviews` card yields `num_of_reviews = 15`. -/
theorem C10_reviews_first_token_witness :
    (∃ e, parse_single_product pageNoSwatches cardBlankReviews = Except.error e) ∧
    prodOk.num_of_reviews = 15 :=
  ⟨(C10_reviews_first_token pageNoSwatches cardBlankReviews).1 (by decide),
   (C10_reviews_first_token pageNoSwatches cardOk).2.2 "15" ["reviews"] 15 prodOk
     (by decide) (by decide) (by decide)⟩

/-- Assigning a fresh key to the Python dict appends it. -/
theorem dictInsert_append_of_not_mem (d : List (String × ℚ)) (k : String) (v : ℚ)
    (h : d.any (fun p => p.1 = k) = false) : dictInsert d k v = d ++ [(k, v)] := by
  simp only [dictInsert, h]
  simp

/-- The button loop, run from any dict state: when every enabled button's
click reveals a price parsing to `f` of its value, and the enabled values
are distinct and fresh for the accumulator, the loop succeeds and appends
one entry per enabled button, in button order. -/
theorem hddTryBody_all_prices (page : DetailPage) (f : String → ℚ) :
    ∀ (buttons : List SwatchButton) (acc : List (String × ℚ)),
      (∀ b ∈ buttons, b.disabled = false →
        ∃ t, page.priceAfterClick b.value = some t ∧
          parseDecimal (stripDollar t) = some (f b.value)) →
      ((buttons.filter (fun x => !x.disabled)).map SwatchButton.value).Nodup →
      (∀ b ∈ buttons, b.disabled = false →
        acc.any (fun p => p.1 = b.value) = false) →
      hddTryBody page buttons acc =
        Except.ok (acc ++ (buttons.filter (fun x => !x.disabled)).map
          (fun x => (x.value, f x.value))) := by
  intro buttons
  induction buttons with
  | nil =>
      intro acc _ _ _
      simp [hddTryBody]
  | cons b rest ih =>
      intro acc hall hnd hdisj
      by_cases hb : b.disabled = true
      · have hfilter : (b :: rest).filter (fun x => !x.disabled) =
            rest.filter (fun x => !x.disabled) := by
          simp [List.filter_cons, hb]
        rw [hfilter]
        have hstep : hddTryBody page (b :: rest) acc = hddTryBody page rest acc := by
          simp [hddTryBody, hb]
        rw [hstep]
        exact ih acc (fun x hx hd => hall x (List.mem_cons_of_mem b hx) hd)
          (by rwa [hfilter] at hnd)
          (fun x hx hd => hdisj x (List.mem_cons_of_mem b hx) hd)
      · have hb' : b.disabled = false := by simpa using hb
        obtain ⟨t, hpt, hq⟩ := hall b (List.mem_cons_self b rest) hb'
        have hfilter : (b :: rest).filter (fun x => !x.disabled) =
            b :: rest.filter (fun x => !x.disabled) := by
          simp [List.filter_cons, hb']
        have hnotin : acc.any (fun p => p.1 = b.value) = false :=
          hdisj b (List.mem_cons_self b rest) hb'
        have hstep : hddTryBody page (b :: rest) acc =
            hddTryBody page rest (dictInsert acc b.value (f b.value)) := by
          simp [hddTryBody, hb', hpt, hq]
        rw [hstep, hfilter, dictInsert_append_of_not_mem acc b.value (f b.value) hnotin]
        have hnd2 := hnd
        rw [hfilter] at hnd2
        simp only [List.map_cons, List.nodup_cons] at hnd2
        obtain ⟨hbnot, hndrest⟩ := hnd2
        have hdisj2 : ∀ x ∈ rest, x.disabled = false →
            (acc ++ [(b.value, f b.value)]).any (fun p => p.1 = x.value) = false := by
          intro x hx hd
          rw [List.any_append]
          have h1 : acc.any (fun p => p.1 = x.value) = false :=
            hdisj x (List.mem_cons_of_mem b hx) hd
          have hxval : x.value ∈ (rest.filter (fun y => !y.disabled)).map SwatchButton.value := by
            apply List.mem_map_of_mem
            simp [List.mem_filter, hx, hd]
          have hne : b.value ≠ x.value := fun he => hbnot (he ▸ hxval)
          simp [h1, hne]
        rw [ih (acc ++ [(b.value, f b.value)])
          (fun x hx hd => hall x (List.mem_cons_of_mem b hx) hd) hndrest hdisj2]
        simp

/-- C6: on a detail page whose swatch group's enabled buttons have
pairwise-distinct values, and where each enabled button's click reveals a
price text parsing to `f` of its value, `product_hdd_block_prices` returns
exactly one entry per enabled button — keyed by the button's value, mapped
to the parsed displayed price, disabled buttons contributing nothing. -/
theorem C6_enabled_swatches_mapping (page : DetailPage)
    (buttons : List SwatchButton) (f : String → ℚ)
    (h1 : page.swatches = some buttons)
    (h2 : ((buttons.filter (fun x => !x.disabled)).map SwatchButton.value).Nodup)
    (h3 : ∀ b ∈ buttons, b.disabled = false →
      ∃ t, page.priceAfterClick b.value = some t ∧
        parseDecimal (stripDollar t) = some (f b.value)) :
    product_hdd_block_prices page =
      Except.ok ((buttons.filter (fun x => !x.disabled)).map
        (fun x => (x.value, f x.value))) ∧
    ((buttons.filter (fun x => !x.disabled)).map
        (fun x => (x.value, f x.value))).length =
      (buttons.filter (fun x => !x.disabled)).length := by
  have hbody := hddTryBody_all_prices page f buttons [] h3 h2 (fun b _ _ => rfl)
  refine ⟨?_, by simp⟩
  simp [product_hdd_block_prices, h1, hbody]

/-- C6 price table for the concrete page `pageTwoSwatches`. -/
def f6 : String → ℚ := fun v => if v = "128GB" then mkRat 2499 100 else mkRat 9950 100

/-- C6 witness: the concrete page with enabled swatches 128GB and 1TB and
a disabled 2TB yields exactly the two-entry mapping of their displayed
prices. -/
theorem C6_enabled_swatches_mapping_witness :
    product_hdd_block_prices pageTwoSwatches =
      Except.ok [("128GB", mkRat 2499 100), ("1TB", mkRat 9950 100)] := by
  have hall : ∀ b ∈ [(⟨false, "128GB"⟩ : SwatchButton), ⟨true, "2TB"⟩, ⟨false, "1TB"⟩],
      b.disabled = false → ∃ t, pageTwoSwatches.priceAfterClick b.value = some t ∧
        parseDecimal (stripDollar t) = some (f6 b.value) := by
    intro b hb hbd
    simp only [List.mem_cons, List.not_mem_nil, or_false] at hb
    rcases hb with h | h | h
    · subst h
      exact ⟨"$24.99", rfl, by decide⟩
    · subst h
      exact absurd hbd (by decide)
    · subst h
      exact ⟨"$99.50", rfl, by decide⟩
  have h := (C6_enabled_swatches_mapping pageTwoSwatches
      [⟨false, "128GB"⟩, ⟨true, "2TB"⟩, ⟨false, "1TB"⟩] f6 rfl (by decide) hall).1
  rw [h]
  decide

end Scraper
